import Mathlib

/-!
Shallow embedding of the sd-watcher-afk repository (Python) in Lean 4.

Time and idle durations are modelled as rationals (seconds); the Python
`timedelta(milliseconds=1)` is the rational 1/1000.  Each definition below
names the source construct it embeds (file and lines).
-/

namespace Watcher

/-! ## Data model: afk.py -/

/-- Configuration section providing fallback values for `Settings`
(`config_section["timeout"]`, `config_section["poll_time"]` in
afk.py lines 42-44). -/
structure ConfigSection where
  timeout : ℚ
  poll_time : ℚ
deriving DecidableEq

/-- `Settings` (afk.py lines 32-46): `timeout` and `poll_time` in seconds. -/
structure Settings where
  timeout : ℚ
  poll_time : ℚ
deriving DecidableEq

/-- Python `x or fallback` on an optional numeric argument (afk.py lines
42 and 44): `None` and `0` are falsy, any other number is truthy. -/
def pyOr (arg : Option ℚ) (fallback : ℚ) : ℚ :=
  match arg with
  | none => fallback
  | some x => if x = 0 then fallback else x

/-- `Settings.__init__` (afk.py lines 33-46): resolves `timeout` and
`poll_time` through Python truthiness against the config section, then
runs `assert self.timeout >= self.poll_time`.  A failed assert raises,
modelled as `Except.error "AssertionError"`. -/
def Settings.init (config_section : ConfigSection) (timeout poll_time : Option ℚ) :
    Except String Settings :=
  let t := pyOr timeout config_section.timeout
  let p := pyOr poll_time config_section.poll_time
  if p ≤ t then Except.ok ⟨t, p⟩ else Except.error "AssertionError"

/-- Payload `data` dict built in `AFKWatcher.ping` (afk.py line 77). -/
structure EventData where
  status : String
  app : String
  title : String
deriving DecidableEq

/-- `Event(timestamp=..., duration=..., data=...)` (afk.py line 78). -/
structure Event where
  timestamp : ℚ
  duration : ℚ
  data : EventData
deriving DecidableEq

/-- The single `client.heartbeat(bucket, event, pulsetime, queued)` call
made by `AFKWatcher.ping` (afk.py line 80). -/
structure HeartbeatCall where
  bucket : String
  event : Event
  pulsetime : ℚ
  queued : Bool
deriving DecidableEq

/-- Default for the `duration` parameter of `AFKWatcher.ping`
(afk.py line 69: `duration: float = 0`). -/
def ping_default_duration : ℚ := 0

/-- `AFKWatcher.ping` (afk.py lines 69-80): builds the payload dict, wraps
it in an `Event`, sets `pulsetime = timeout + poll_time` and submits one
heartbeat with `queued=True`. -/
def ping (settings : Settings) (bucketname : String) (afk : Bool)
    (timestamp duration : ℚ) : HeartbeatCall :=
  let data : EventData :=
    { status := if afk then "afk" else "not-afk", app := "afk", title := "Idle time" }
  let e : Event := { timestamp := timestamp, duration := duration, data := data }
  let pulsetime := settings.timeout + settings.poll_time
  { bucket := bucketname, event := e, pulsetime := pulsetime, queued := true }

/-! ## The AFK state machine: afk.py `heartbeat_loop` -/

/-- `td1ms = timedelta(milliseconds=1)` (afk.py line 29), in seconds. -/
def td1ms : ℚ := 1 / 1000

/-- One `self.ping(afk, timestamp=...)` call in the loop body, recorded as
the afk flag and timestamp passed (duration is left at its default 0). -/
structure Ping where
  afk : Bool
  timestamp : ℚ
deriving DecidableEq

/-- The decision core of one iteration of `AFKWatcher.heartbeat_loop`
(afk.py lines 119-151): given the current `afk` flag, the sampling
instant `now` and the sampled `seconds_since_input`, it computes
`last_input = now - seconds_since_input` and runs the if/elif/else
chain, returning the new `afk` flag and the pings made in order.
Note that in both transition branches the first `self.ping(afk, ...)`
happens before `afk` is reassigned, so it carries the old flag. -/
def heartbeat_tick (timeout : ℚ) (afk : Bool) (now seconds_since_input : ℚ) :
    Bool × List Ping :=
  let last_input := now - seconds_since_input
  if afk = true ∧ seconds_since_input < timeout then
    (false, [⟨true, last_input⟩, ⟨false, last_input + td1ms⟩])
  else if afk = false ∧ timeout ≤ seconds_since_input then
    (true, [⟨false, last_input⟩, ⟨true, now⟩])
  else if afk = true then
    (true, [⟨true, now⟩])
  else
    (false, [⟨false, last_input⟩])

/-- Exceptions that a tick's sample / heartbeat submission may raise,
split by how the `try`/`except` in `heartbeat_loop` treats them. -/
inductive PyExc where
  | keyboardInterrupt
  | otherExc
deriving DecidableEq

/-- Input to one loop iteration: either a normal sample (the sampling
instant and the idle seconds returned by `seconds_since_last_input()`),
or an exception raised by the tick's sampling / submission step. -/
inductive TickInput where
  | sample (now seconds_since_input : ℚ)
  | raises (e : PyExc)
deriving DecidableEq

/-- How the `while True` loop of `heartbeat_loop` ends on a given input
trace: `breakClean` for the `break` in the `except KeyboardInterrupt`
handler, `escaped e` when an exception has no matching handler and
propagates out of the loop, `exhausted` when the trace ran out with the
loop still going. -/
inductive LoopExit where
  | breakClean
  | escaped (e : PyExc)
  | exhausted
deriving DecidableEq

/-- `AFKWatcher.heartbeat_loop` (afk.py lines 98-157) over a finite input
trace, starting from a given `afk` flag.  The body is wrapped in
`try: ... except KeyboardInterrupt: break` and nothing else: a
`KeyboardInterrupt` breaks out of the loop, while any other exception has
no handler and propagates out of `heartbeat_loop`.  Returns how the loop
ended, the final `afk` flag, and all pings made. -/
def heartbeat_loop (timeout : ℚ) : Bool → List TickInput → LoopExit × Bool × List Ping
  | afk, [] => (LoopExit.exhausted, afk, [])
  | afk, TickInput.sample now s :: rest =>
      let r := heartbeat_tick timeout afk now s
      let k := heartbeat_loop timeout r.1 rest
      (k.1, k.2.1, r.2 ++ k.2.2)
  | afk, TickInput.raises e :: _rest =>
      match e with
      | PyExc.keyboardInterrupt => (LoopExit.breakClean, afk, [])
      | PyExc.otherExc => (LoopExit.escaped PyExc.otherExc, afk, [])

/-- `AFKWatcher.__init__` followed by the loop (afk.py lines 50-60 then
98-157): `Settings` is constructed first, and an `AssertionError` there
prevents the loop from ever running; otherwise the loop starts with
`afk = False` (afk.py line 102). -/
def afkwatcher_run (cfg : ConfigSection) (timeout poll_time : Option ℚ)
    (ticks : List TickInput) : Except String (LoopExit × Bool × List Ping) :=
  match Settings.init cfg timeout poll_time with
  | Except.error e => Except.error e
  | Except.ok s => Except.ok (heartbeat_loop s.timeout false ticks)

/-- The two-valued AFK state of the spec: `afk = false` is `NotAFK`,
`afk = true` is `AFK`. -/
inductive AFKState where
  | NotAFK
  | AFK
deriving DecidableEq

/-- Reading of the boolean `afk` flag as a spec-level state. -/
def toAFKState (afk : Bool) : AFKState :=
  if afk then AFKState.AFK else AFKState.NotAFK

/-- Fault-free run of `heartbeat_loop` over a list of `(now, idle seconds)`
samples, recording after each tick the `afk` flag and the number of pings
that tick made. -/
def run_ticks (timeout : ℚ) : Bool → List (ℚ × ℚ) → List (Bool × Nat)
  | _, [] => []
  | afk, (now, s) :: rest =>
      let r := heartbeat_tick timeout afk now s
      (r.1, r.2.length) :: run_ticks timeout r.1 rest

/-! ## Event accumulators: listeners.py -/

/-- The keyboard accumulator's `event_data` dict, `{"presses": 0}` after
`KeyboardListener._reset_data` (listeners.py line 85). -/
structure KeyboardData where
  presses : Nat
deriving DecidableEq

/-- `KeyboardListener._reset_data` (listeners.py lines 81-85). -/
def keyboard_reset_data : KeyboardData := ⟨0⟩

/-- State of a `KeyboardListener`: its `event_data` and the `new_event`
flag inherited from `EventFactory` (listeners.py lines 19-28, 64-70). -/
structure KeyboardListenerState where
  event_data : KeyboardData
  new_event : Bool
deriving DecidableEq

/-- A freshly constructed `KeyboardListener`: `EventFactory.__init__`
creates a cleared `threading.Event` and calls `_reset_data`
(listeners.py lines 20-28). -/
def keyboard_init : KeyboardListenerState := ⟨keyboard_reset_data, false⟩

/-- `KeyboardListener.on_press` (listeners.py lines 87-95): increments
`presses` and sets the `new_event` flag. -/
def on_press (st : KeyboardListenerState) : KeyboardListenerState :=
  { event_data := ⟨st.event_data.presses + 1⟩, new_event := true }

/-- `KeyboardListener.on_release` (listeners.py lines 97-105): releases
are intentionally not counted; the state is untouched. -/
def on_release (st : KeyboardListenerState) : KeyboardListenerState := st

/-- `EventFactory.next_event` as inherited by `KeyboardListener`
(listeners.py lines 40-52): clears the flag, snapshots `event_data`,
resets the data to defaults and returns the snapshot. -/
def keyboard_next_event (st : KeyboardListenerState) :
    KeyboardData × KeyboardListenerState :=
  (st.event_data, ⟨keyboard_reset_data, false⟩)

/-- `EventFactory.has_new_event` for the keyboard listener
(listeners.py lines 54-61). -/
def keyboard_has_new_event (st : KeyboardListenerState) : Bool := st.new_event

/-- The mouse accumulator's `event_data` dict with its five counters
(listeners.py lines 121-124). -/
structure MouseData where
  clicks : Nat
  deltaX : ℚ
  deltaY : ℚ
  scrollX : ℚ
  scrollY : ℚ
deriving DecidableEq

/-- `MouseListener._reset_data` (listeners.py lines 117-124). -/
def mouse_reset_data : MouseData := ⟨0, 0, 0, 0, 0⟩

/-- State of a `MouseListener`: `event_data`, the `new_event` flag, and
`self.pos` (last seen cursor position, `None` until the first move,
listeners.py line 115). -/
structure MouseListenerState where
  event_data : MouseData
  new_event : Bool
  pos : Option (ℚ × ℚ)
deriving DecidableEq

/-- A freshly constructed `MouseListener` (listeners.py lines 109-115). -/
def mouse_init : MouseListenerState := ⟨mouse_reset_data, false, none⟩

/-- `MouseListener.on_move` (listeners.py lines 137-155): if `pos` is
still `None` it is first set to the new position; the per-axis absolute
difference between the previous and new position is then added to
`deltaX`/`deltaY`, `pos` is updated and the flag is set. -/
def on_move (st : MouseListenerState) (x y : ℚ) : MouseListenerState :=
  let newpos : ℚ × ℚ := (x, y)
  let pos :=
    match st.pos with
    | none => newpos
    | some p => p
  let dx := pos.1 - newpos.1
  let dy := pos.2 - newpos.2
  { event_data :=
      { st.event_data with
        deltaX := st.event_data.deltaX + |dx|,
        deltaY := st.event_data.deltaY + |dy| },
    new_event := true,
    pos := some newpos }

/-- `MouseListener.on_click` (listeners.py lines 157-171): only presses
(`down = true`) count; a press increments `clicks` and sets the flag. -/
def on_click (st : MouseListenerState) (down : Bool) : MouseListenerState :=
  if down then
    { st with
      event_data := { st.event_data with clicks := st.event_data.clicks + 1 },
      new_event := true }
  else st

/-- `MouseListener.on_scroll` (listeners.py lines 173-185): adds the
absolute scroll amounts per axis and sets the flag. -/
def on_scroll (st : MouseListenerState) (scrollx scrolly : ℚ) : MouseListenerState :=
  { st with
    event_data :=
      { st.event_data with
        scrollX := st.event_data.scrollX + |scrollx|,
        scrollY := st.event_data.scrollY + |scrolly| },
    new_event := true }

/-- `EventFactory.next_event` as inherited by `MouseListener`
(listeners.py lines 40-52): clears the flag, snapshots and resets
`event_data`, returns the snapshot; `self.pos` is not part of
`event_data` and is untouched. -/
def mouse_next_event (st : MouseListenerState) :
    MouseData × MouseListenerState :=
  (st.event_data, ⟨mouse_reset_data, false, st.pos⟩)

/-- `EventFactory.has_new_event` for the mouse listener
(listeners.py lines 54-61). -/
def mouse_has_new_event (st : MouseListenerState) : Bool := st.new_event

/-! ## Claims -/

/-- Claim C1, counterexample: with `timeout = 300`, state `NotAFK`,
`now = 1000` and `seconds_since_input = 310`, the tick does emit two
heartbeats, but their afk flags are `[false, true]`, not `[true, true]`
as the claim states: the first `self.ping(afk, ...)` runs before `afk`
is reassigned and so carries the old flag. -/
theorem C1_counterexample :
    (heartbeat_tick 300 false 1000 310).2.map Ping.afk ≠ [true, true] := by
  decide

/-- Claim C1 (amended): on a tick in state `NotAFK` with
`seconds_since_input >= timeout`, the state machine transitions to `AFK`
and emits exactly two heartbeats, the first with `afk = false` and
timestamp `now - seconds_since_input` (the last input time), the second
with `afk = true` and timestamp `now`. -/
theorem C1_become_afk (timeout now s : ℚ) (h : timeout ≤ s) :
    heartbeat_tick timeout false now s
      = (true, [⟨false, now - s⟩, ⟨true, now⟩]) := by
  simp [heartbeat_tick, h]

/-- Claim C1 witness: the amended transition at `timeout = 300`,
`now = 1000`, `seconds_since_input = 310`. -/
theorem C1_become_afk_witness :
    heartbeat_tick 300 false 1000 310
      = (true, [⟨false, 1000 - 310⟩, ⟨true, 1000⟩]) :=
  C1_become_afk 300 1000 310 (by decide)

/-- Claim C2, counterexample: with `timeout = 300`, state `AFK`,
`now = 1000` and `seconds_since_input = 10`, the tick emits two
heartbeats whose afk flags are `[true, false]`, not `[false, false]` as
the claim states: the first ping carries the old `afk = true` flag. -/
theorem C2_counterexample :
    (heartbeat_tick 300 true 1000 10).2.map Ping.afk ≠ [false, false] := by
  decide

/-- Claim C2 (amended): on a tick in state `AFK` with
`seconds_since_input < timeout`, the state machine transitions to
`NotAFK` and emits exactly two heartbeats, the first with `afk = true`
and timestamp `lastInputTime = now - seconds_since_input`, the second
with `afk = false` and timestamp `lastInputTime + 1ms`; the two
timestamps differ by exactly one millisecond, the second later. -/
theorem C2_no_longer_afk (timeout now s : ℚ) (h : s < timeout) :
    heartbeat_tick timeout true now s
        = (false, [⟨true, now - s⟩, ⟨false, now - s + td1ms⟩]) ∧
      (now - s + td1ms) - (now - s) = 1 / 1000 ∧
      now - s < now - s + td1ms := by
  refine ⟨by simp [heartbeat_tick, h], by simp only [td1ms]; ring, ?_⟩
  have hpos : (0 : ℚ) < td1ms := by norm_num [td1ms]
  linarith

/-- Claim C2 witness: the amended transition at `timeout = 300`,
`now = 1000`, `seconds_since_input = 10`. -/
theorem C2_no_longer_afk_witness :
    heartbeat_tick 300 true 1000 10
        = (false, [⟨true, 1000 - 10⟩, ⟨false, 1000 - 10 + td1ms⟩]) ∧
      ((1000 : ℚ) - 10 + td1ms) - (1000 - 10) = 1 / 1000 ∧
      (1000 : ℚ) - 10 < 1000 - 10 + td1ms :=
  C2_no_longer_afk 300 1000 10 (by decide)

/-- Claim C3, counterexample: a non-interrupt exception raised on a tick
makes the loop exit with the exception escaping, and no later tick runs
(no heartbeat from the following sample is emitted): the `try` block's
only handler is `except KeyboardInterrupt`. -/
theorem C3_counterexample :
    (heartbeat_loop 300 false
          [TickInput.raises PyExc.otherExc, TickInput.sample 5 0]).1
        = LoopExit.escaped PyExc.otherExc ∧
      (heartbeat_loop 300 false
          [TickInput.raises PyExc.otherExc, TickInput.sample 5 0]).2.2 = [] := by
  decide

/-- Claim C3 (amended): a `KeyboardInterrupt` raised on a tick always
terminates the loop immediately and cleanly; any other exception raised
by the tick's sampling / heartbeat submission is not caught — it
propagates out of the polling loop, and the loop does not proceed to the
next tick. -/
theorem C3_exception_propagation (timeout : ℚ) (afk : Bool) (rest : List TickInput) :
    heartbeat_loop timeout afk (TickInput.raises PyExc.keyboardInterrupt :: rest)
        = (LoopExit.breakClean, afk, []) ∧
      heartbeat_loop timeout afk (TickInput.raises PyExc.otherExc :: rest)
        = (LoopExit.escaped PyExc.otherExc, afk, []) :=
  ⟨rfl, rfl⟩

/-- Claim C4: with `timeout = 300` and `poll_time = 5`, starting in
`NotAFK`, the sampled idle-seconds sequence `[0, 0, 310, 310, 0]` yields
the state sequence `[NotAFK, NotAFK, AFK, AFK, NotAFK]` and per-tick
heartbeat counts `[1, 1, 2, 1, 2]`. -/
theorem C4_scenario :
    (run_ticks 300 false [(0, 0), (5, 0), (10, 310), (15, 310), (20, 0)]).map
        (fun r => (toAFKState r.1, r.2))
      = [(AFKState.NotAFK, 1), (AFKState.NotAFK, 1), (AFKState.AFK, 2),
         (AFKState.AFK, 1), (AFKState.NotAFK, 2)] := rfl

/-- Claim C5: on a tick with no transition the state is unchanged and
exactly one heartbeat is emitted — `(afk = true, timestamp = now)` when
`AFK` with `seconds_since_input >= timeout`, and
`(afk = false, timestamp = lastInputTime)` when `NotAFK` with
`seconds_since_input < timeout`; in particular repeated such ticks never
flip the state. -/
theorem C5_no_transition (timeout now s : ℚ) :
    (timeout ≤ s → heartbeat_tick timeout true now s = (true, [⟨true, now⟩])) ∧
      (s < timeout →
        heartbeat_tick timeout false now s = (false, [⟨false, now - s⟩])) := by
  constructor
  · intro h
    simp [heartbeat_tick, not_lt.mpr h]
  · intro h
    simp [heartbeat_tick, not_le.mpr h]

/-- Claim C5 witness: no-transition ticks at `timeout = 300` — `AFK` with
idle 310 and `NotAFK` with idle 3. -/
theorem C5_no_transition_witness :
    heartbeat_tick 300 true 1000 310 = (true, [⟨true, 1000⟩]) ∧
      heartbeat_tick 300 false 1000 3 = (false, [⟨false, 1000 - 3⟩]) :=
  ⟨(C5_no_transition 300 1000 310).1 (by decide),
   (C5_no_transition 300 1000 3).2 (by decide)⟩

/-- Claim C6: constructing `Settings` with explicit non-zero `timeout`
and `poll_time` succeeds exactly when `poll_time <= timeout` (the
`assert`), and with `timeout < poll_time` the assertion failure aborts
`AFKWatcher` construction, so the polling loop never starts. -/
theorem C6_settings_assert (cfg : ConfigSection) (t p : ℚ) (ht : t ≠ 0)
    (hp : p ≠ 0) (ticks : List TickInput) :
    ((∃ s, Settings.init cfg (some t) (some p) = Except.ok s) ↔ p ≤ t) ∧
      (t < p →
        afkwatcher_run cfg (some t) (some p) ticks
          = Except.error "AssertionError") := by
  have hres : Settings.init cfg (some t) (some p)
      = if p ≤ t then Except.ok ⟨t, p⟩ else Except.error "AssertionError" := by
    simp [Settings.init, pyOr, ht, hp]
  constructor
  · constructor
    · rintro ⟨s, hs⟩
      by_contra hpt
      rw [hres, if_neg hpt] at hs
      exact Except.noConfusion hs
    · intro hle
      exact ⟨⟨t, p⟩, by rw [hres, if_pos hle]⟩
  · intro hlt
    have herr : Settings.init cfg (some t) (some p)
        = Except.error "AssertionError" := by
      rw [hres, if_neg (not_le.mpr hlt)]
    simp [afkwatcher_run, herr]

/-- Claim C6 witness: `timeout = 5`, `poll_time = 10` is rejected and the
loop never runs. -/
theorem C6_settings_assert_witness :
    ((∃ s, Settings.init ⟨300, 5⟩ (some 5) (some 10) = Except.ok s)
        ↔ (10 : ℚ) ≤ 5) ∧
      afkwatcher_run ⟨300, 5⟩ (some 5) (some 10) []
        = Except.error "AssertionError" :=
  ⟨(C6_settings_assert ⟨300, 5⟩ 5 10 (by decide) (by decide) []).1,
   (C6_settings_assert ⟨300, 5⟩ 5 10 (by decide) (by decide) []).2 (by decide)⟩

/-- Claim C7: for either accumulator, immediately after `next_event` the
`has_new_event` flag reads false and all counters equal their reset
defaults (`presses = 0`; `clicks = deltaX = deltaY = scrollX = scrollY = 0`),
and `next_event` returns the pre-reset snapshot of the counters — for
every reachable prior state, including any burst of callback activity. -/
theorem C7_next_event_reset (kb : KeyboardListenerState) (m : MouseListenerState) :
    (keyboard_next_event kb).1 = kb.event_data ∧
      keyboard_has_new_event (keyboard_next_event kb).2 = false ∧
      (keyboard_next_event kb).2.event_data = ⟨0⟩ ∧
      (mouse_next_event m).1 = m.event_data ∧
      mouse_has_new_event (mouse_next_event m).2 = false ∧
      (mouse_next_event m).2.event_data = ⟨0, 0, 0, 0, 0⟩ :=
  ⟨rfl, rfl, rfl, rfl, rfl, rfl⟩

/-- Claim C8: `ping` builds exactly one heartbeat call whose event
payload is `{status: "afk"|"not-afk", app: "afk", title: "Idle time"}`,
whose duration defaults to 0, with `pulsetime = timeout + poll_time`
and queued delivery enabled. -/
theorem C8_ping_payload (s : Settings) (bucket : String) (afk : Bool) (ts : ℚ) :
    ping s bucket afk ts ping_default_duration
      = { bucket := bucket,
          event :=
            { timestamp := ts, duration := 0,
              data :=
                { status := if afk then "afk" else "not-afk",
                  app := "afk", title := "Idle time" } },
          pulsetime := s.timeout + s.poll_time,
          queued := true } := rfl

/-- Claim C9: a fresh mouse accumulator fed moves `(0,0)`, `(3,4)`,
`(1,4)` accumulates `deltaX = 3 + 2 = 5` and `deltaY = 4 + 0 = 4`:
per-axis absolute displacement, not net displacement. -/
theorem C9_mouse_move_deltas :
    (on_move (on_move (on_move mouse_init 0 0) 3 4) 1 4).event_data.deltaX = 5 ∧
      (on_move (on_move (on_move mouse_init 0 0) 3 4) 1 4).event_data.deltaY = 4 := by
  norm_num [on_move, mouse_init, mouse_reset_data, abs]

/-- Claim C10: an explicit `timeout` (or `poll_time`) argument of 0 is
discarded by Python's truthiness `or` and the config-section value is
used instead, exactly as when no argument is given; only a non-zero
argument overrides the configuration. -/
theorem C10_zero_arg_fallback (cfg : ConfigSection) (t p : Option ℚ) :
    Settings.init cfg (some 0) p = Settings.init cfg none p ∧
      Settings.init cfg t (some 0) = Settings.init cfg t none ∧
      (∀ x : ℚ, x ≠ 0 → pyOr (some x) cfg.timeout = x) ∧
      pyOr (some 0) cfg.timeout = cfg.timeout := by
  refine ⟨?_, ?_, ?_, ?_⟩
  · simp [Settings.init, pyOr]
  · simp [Settings.init, pyOr]
  · intro x hx
    simp [pyOr, hx]
  · simp [pyOr]

/-- Claim C10 witness: an explicit 0 behaves like an absent argument, and
a non-zero explicit value (7) overrides the config value (300). -/
theorem C10_zero_arg_fallback_witness :
    Settings.init ⟨300, 5⟩ (some 0) (some 5) = Settings.init ⟨300, 5⟩ none (some 5) ∧
      pyOr (some 7) (300 : ℚ) = 7 :=
  ⟨(C10_zero_arg_fallback ⟨300, 5⟩ (some 0) (some 5)).1,
   (C10_zero_arg_fallback ⟨300, 5⟩ none (some 5)).2.2.1 7 (by decide)⟩

end Watcher
